import Mathlib

/-!
# Verification of the `get_weather` pipeline of `src/server.ts`

Shallow embedding of the core of the MCP weather server
(argument validation, geocoding wrapper, forecast request builder,
response normalizer, result packager) and proofs of the stated
properties.

Modelling conventions:
* JavaScript numbers carrying physical samples are modelled as the
  inductive `JNum`: a finite value is an exact rational, and the
  non-finite values NaN / Infinity / -Infinity are the remaining
  constructors.  `Number(x.toFixed(1))` on a finite value is modelled as
  exact one-decimal rounding with ties toward positive infinity, which
  is the tie rule of `toFixed` ("if there are two such n, pick the
  larger n"); on NaN / ±Infinity `toFixed` round-trips the value
  unchanged (`Number("NaN") = NaN` etc.).
* `Date.toISOString()` is injective on instants, so a timestamp string
  is modelled by the instant itself (epoch seconds) via the `JVal.jtime`
  constructor, and the date-only truncation `toISOString().slice(0,10)`
  by the UTC epoch day (floor division of the epoch seconds by 86400)
  via `JVal.jdate`.
* `JSON.stringify` is modelled by a concrete compact renderer
  `JVal.render`; no property below inspects the rendered text, only the
  text-vs-structured variant of the content item.
* The two outbound calls (geocoding fetch, `fetchWeatherApi`) are
  modelled by an environment `Env`: the geocoding HTTP exchange is a
  value (`Except` error = a thrown exception, carrying its message), and
  the forecast collaborator is a function from the built parameter list
  to either a thrown exception or a list of responses.
-/

namespace Weather

/-! ## Basic enumerations of the validated argument record -/

inductive Units where
  | metric
  | imperial
deriving DecidableEq, Repr

inductive Mode where
  | current
  | hourly
  | daily
deriving DecidableEq, Repr

inductive Format where
  | json
  | text
deriving DecidableEq, Repr

/-! ## JavaScript numbers and provider samples -/

/-- A JavaScript number: a finite value (exact rational) or one of the
non-finite values. -/
inductive JNum where
  | fin (q : ℚ)
  | nan
  | inf
  | negInf
deriving DecidableEq, Repr

/-- A value read off a provider response that is either a number or not
a number (`undefined` / missing / other type), as discriminated by the
source's `typeof x === "number"` tests. -/
inductive Sample where
  | num (x : JNum)
  | notNum
deriving DecidableEq, Repr

/-- `Number(q.toFixed(1))` for a finite `q`: rounding to one decimal
place, ties toward positive infinity (`round` is `⌊x + 1/2⌋`). -/
def toFixed1 (q : ℚ) : ℚ := (round (q * 10) : ℤ) / 10

/-- `Number(x.toFixed(1))` on an arbitrary JavaScript number: finite
values are rounded to one decimal, NaN and ±Infinity round-trip through
the string conversion unchanged. -/
def JNum.toFixedOne : JNum → JNum
  | .fin q => .fin (toFixed1 q)
  | .nan => .nan
  | .inf => .inf
  | .negInf => .negInf

/-- `Number.isFinite` on a JavaScript number. -/
def JNum.isFinite : JNum → Bool
  | .fin _ => true
  | _ => false

/-- Normalization of a current-mode sample
(`typeof v === "number" && Number.isFinite(v) ? Number(v.toFixed(1)) : null`,
`server.ts` lines 239-246): `none` models `null`. -/
def normCurrent : Sample → Option JNum
  | .num (.fin q) => some (.fin (toFixed1 q))
  | _ => none

/-- Normalization of the `i`-th element of an hourly/daily values array
(`typeof arr[i] === "number" ? Number(Number(arr[i]).toFixed(1)) : null`,
`server.ts` lines 289-297 and 345-362).  Array elements are numbers
(`Float32Array`), so the `typeof` test only fails out of range. -/
def normIdx (arr : List JNum) (i : ℕ) : Option JNum :=
  match arr[i]? with
  | some x => some x.toFixedOne
  | none => none

/-! ## JSON values (payload documents) -/

/-- JSON-ish payload values.  `jtime` is an ISO-8601 instant string
represented by its epoch seconds; `jdate` is a date-only string
represented by its UTC epoch day. -/
inductive JVal where
  | jnull
  | jnum (x : JNum)
  | jstr (s : String)
  | jtime (sec : ℤ)
  | jdate (day : ℤ)
  | jarr (xs : List JVal)
  | jobj (fields : List (String × JVal))

/-- Key lookup in an object payload (first binding wins, as in a
JavaScript object literal without duplicate keys). -/
def JVal.lookup (v : JVal) (k : String) : Option JVal :=
  match v with
  | .jobj fields => fields.lookup k
  | _ => none

/-- An optional number rendered into a payload field: `null` when
absent. -/
def optJ : Option JNum → JVal
  | some x => .jnum x
  | none => .jnull

/-- Rendering of a number by `JSON.stringify` (non-finite values render
as `null`; the decimal notation of finite values is abstracted by the
rational's canonical string, which no property inspects). -/
def JNum.render : JNum → String
  | .fin q => toString q
  | _ => "null"

mutual

/-- Compact rendering modelling `JSON.stringify` (modulo the numeric
and timestamp notations noted above, which no property inspects). -/
def JVal.render : JVal → String
  | .jnull => "null"
  | .jnum x => x.render
  | .jstr s => "\"" ++ s ++ "\""
  | .jtime sec => "\"" ++ toString sec ++ "\""
  | .jdate day => "\"" ++ toString day ++ "\""
  | .jarr xs => "[" ++ JVal.renderList xs ++ "]"
  | .jobj fs => "\x7b" ++ JVal.renderFields fs ++ "\x7d"

/-- Comma-separated rendering of array elements. -/
def JVal.renderList : List JVal → String
  | [] => ""
  | [x] => x.render
  | x :: xs => x.render ++ "," ++ JVal.renderList xs

/-- Comma-separated rendering of object fields. -/
def JVal.renderFields : List (String × JVal) → String
  | [] => ""
  | [(k, v)] => "\"" ++ k ++ "\":" ++ v.render
  | (k, v) :: fs => "\"" ++ k ++ "\":" ++ v.render ++ "," ++ JVal.renderFields fs

end

/-! ## Untyped input and the argument validator (`ArgSchema`, lines 105-127) -/

/-- A raw field value of the untyped argument mapping. -/
inductive RawVal where
  | str (s : String)
  | intNum (n : ℤ)
  | nonIntNum
  | absent
  | other
deriving DecidableEq, Repr

/-- The untyped argument mapping restricted to the five keys the schema
reads (zod strips unknown keys). -/
structure RawArgs where
  city : RawVal
  units : RawVal
  mode : RawVal
  days : RawVal
  format : RawVal
deriving DecidableEq, Repr

/-- Raw input to `safeParse`: an object or any non-object value. -/
inductive RawInput where
  | obj (a : RawArgs)
  | nonObj
deriving DecidableEq, Repr

/-- One validation issue: field path plus message, as flattened from
`parsed.error`. -/
structure Issue where
  path : List String
  message : String
deriving DecidableEq, Repr

/-- The validated argument record produced by `ArgSchema`. -/
structure Args where
  city : String
  units : Units
  mode : Mode
  days : Option ℤ
  format : Format
deriving DecidableEq, Repr

/-- Whitespace as recognized by `String.prototype.trim` (restricted to
the ASCII whitespace characters; the further Unicode space characters it
also strips are not exercised here). -/
def isWsChar (c : Char) : Bool :=
  c = ' ' || c = '\t' || c = '\n' || c = '\r' || c = '\x0b' || c = '\x0c'

/-- `s.trim()`: strip leading and trailing whitespace. -/
def jsTrim (s : String) : String :=
  ⟨((s.data.dropWhile isWsChar).reverse.dropWhile isWsChar).reverse⟩

/-- `z.string().trim().min(1, "city is required")`: requires a string,
trims it, then requires the trimmed value non-empty. -/
def parseCity : RawVal → Except Issue String
  | .str s =>
      let t := jsTrim s
      if t = "" then .error ⟨["city"], "city is required"⟩ else .ok t
  | .absent => .error ⟨["city"], "Required"⟩
  | _ => .error ⟨["city"], "Expected string"⟩

/-- `z.enum(["metric","imperial"]).optional().default("metric")`. -/
def parseUnits : RawVal → Except Issue Units
  | .str "metric" => .ok .metric
  | .str "imperial" => .ok .imperial
  | .absent => .ok .metric
  | _ => .error ⟨["units"], "Invalid enum value"⟩

/-- `z.enum(["current","hourly","daily"]).optional().default("current")`. -/
def parseMode : RawVal → Except Issue Mode
  | .str "current" => .ok .current
  | .str "hourly" => .ok .hourly
  | .str "daily" => .ok .daily
  | .absent => .ok .current
  | _ => .error ⟨["mode"], "Invalid enum value"⟩

/-- `z.number().int().min(1).max(16).optional()`. -/
def parseDays : RawVal → Except Issue (Option ℤ)
  | .intNum n =>
      if n < 1 then .error ⟨["days"], "Number must be greater than or equal to 1"⟩
      else if 16 < n then .error ⟨["days"], "Number must be less than or equal to 16"⟩
      else .ok (some n)
  | .nonIntNum => .error ⟨["days"], "Expected integer"⟩
  | .absent => .ok none
  | _ => .error ⟨["days"], "Expected number"⟩

/-- `z.enum(["json","text"]).optional().default(defaultFormat)` where
`defaultFormat` is the process-wide configuration value. -/
def parseFormat (dflt : Format) : RawVal → Except Issue Format
  | .str "json" => .ok .json
  | .str "text" => .ok .text
  | .absent => .ok dflt
  | _ => .error ⟨["format"], "Invalid enum value"⟩

/-- The issue contributed by one field parse, if any. -/
def fieldIssues {α : Type} : Except Issue α → List Issue
  | .ok _ => []
  | .error i => [i]

/-- `ArgSchema.safeParse`: field checks in declaration order, collecting
all field issues; the `superRefine` cross-field check (lines 116-127)
runs only when every field check succeeded, and rejects daily requests
whose defaulted `days` lies outside `[7, 10]`. -/
def validateArgs (dflt : Format) (input : RawInput) : Except (List Issue) Args :=
  match input with
  | .nonObj => .error [⟨[], "Expected object"⟩]
  | .obj a =>
      let cityR := parseCity a.city
      let unitsR := parseUnits a.units
      let modeR := parseMode a.mode
      let daysR := parseDays a.days
      let formatR := parseFormat dflt a.format
      match cityR, unitsR, modeR, daysR, formatR with
      | .ok c, .ok u, .ok m, .ok d, .ok f =>
          if m = .daily ∧ (d.getD 7 < 7 ∨ 10 < d.getD 7) then
            .error [⟨["days"], "days must be between 7 and 10 for daily mode"⟩]
          else
            .ok ⟨c, u, m, d, f⟩
      | _, _, _, _, _ =>
          .error (fieldIssues cityR ++ fieldIssues unitsR ++ fieldIssues modeR ++
            fieldIssues daysR ++ fieldIssues formatR)

/-! ## Geocoding (`geocodeCity`, lines 26-55) -/

/-- One result entry of the geocoding collaborator's JSON body. -/
structure GeoResult where
  latitude : ℚ
  longitude : ℚ
  name : String
  country : Option String
  admin1 : Option String
deriving DecidableEq, Repr

/-- The geocoding HTTP exchange as seen by `geocodeCity`: the `ok` flag
of the response and the decoded `results` array (absent modelled as
`[]`, which line 47/48 treats identically). -/
structure GeoResponse where
  ok : Bool
  results : List GeoResult
deriving DecidableEq, Repr

/-- The resolved location. -/
structure Resolved where
  latitude : ℚ
  longitude : ℚ
  displayName : String
deriving DecidableEq, Repr

/-- `[first.name, first.admin1, first.country].filter(Boolean).join(", ")`:
keep the defined, non-empty entries (both `undefined` and `""` are
falsy) and join with a comma-space. -/
def displayNameOf (g : GeoResult) : String :=
  String.intercalate ", "
    ((([some g.name, g.admin1, g.country].filterMap id).filter (fun s => s ≠ "")))

/-- `geocodeCity` (lines 26-55): `null` on a non-ok HTTP status or an
empty/absent results array, else the first result. -/
def geocodeCity (resp : GeoResponse) : Option Resolved :=
  if resp.ok then
    match resp.results.head? with
    | some first => some ⟨first.latitude, first.longitude, displayNameOf first⟩
    | none => none
  else none

/-! ## Forecast request builder (lines 188-214) -/

/-- A value of the `params` record sent to `fetchWeatherApi`. -/
inductive PVal where
  | pnum (q : ℚ)
  | pstr (s : String)
  | plist (xs : List String)
deriving DecidableEq, Repr

/-- The clamped daily horizon (line 171-174):
`mode === "daily" ? Math.min(10, Math.max(7, days ?? 7)) : undefined`. -/
def resolvedDays (args : Args) : Option ℤ :=
  if args.mode = .daily then some (min 10 (max 7 (args.days.getD 7))) else none

/-- The `params` record built for `fetchWeatherApi` (lines 188-214), as
the ordered key/value list of the object literal and subsequent
assignments. -/
def buildParams (geo : Resolved) (mode : Mode) (units : Units) (days : Option ℤ) :
    List (String × PVal) :=
  [("latitude", .pnum geo.latitude), ("longitude", .pnum geo.longitude),
   ("timezone", .pstr "auto")]
  ++ (match mode with
      | .current => [("current", .plist ["temperature_2m", "wind_speed_10m"])]
      | .hourly =>
          [("hourly", .plist ["temperature_2m", "wind_speed_10m"]),
           ("past_days", .pnum 0), ("forecast_days", .pnum 2)]
      | .daily =>
          [("daily", .plist ["temperature_2m_max", "temperature_2m_min",
             "precipitation_sum", "wind_speed_10m_max"]),
           ("forecast_days", .pnum ((days.getD 7 : ℤ) : ℚ))])
  ++ (match units with
      | .imperial => [("temperature_unit", .pstr "fahrenheit"), ("windspeed_unit", .pstr "mph")]
      | .metric => [("temperature_unit", .pstr "celsius"), ("windspeed_unit", .pstr "kmh")])

/-! ## Forecast provider responses -/

/-- The `current()` block: `variables(0)?.value()` and
`variables(1)?.value()` as samples. -/
structure CurrentBlock where
  temperature : Sample
  windSpeed : Sample
deriving DecidableEq, Repr

/-- A time-series block (`hourly()` or `daily()`): base time, end time,
interval (all in seconds) plus the positional variable arrays
(`variables(i)?.valuesArray()`, `none` when the variable or its array is
absent). -/
structure SeriesBlock where
  time : ℤ
  timeEnd : ℤ
  interval : ℤ
  vars : List (Option (List JNum))
deriving Repr

/-- `block.variables(i)?.valuesArray() ?? []`. -/
def getVarArray (b : SeriesBlock) (i : ℕ) : List JNum :=
  ((b.vars[i]?).getD none).getD []

/-- One forecast response of the provider. -/
structure ForecastResponse where
  utcOffsetSeconds : ℤ
  current : Option CurrentBlock
  hourly : Option SeriesBlock
  daily : Option SeriesBlock
deriving Repr

/-- The number of reconstructed timestamps,
`Array.from({length: (end - start) / interval}, ...)` (lines 276-283 /
321-331): `ToLength` truncates the float quotient toward zero and clamps
a negative length to 0, which is integer T-division followed by `toNat`.
(A zero interval, where the float quotient is non-finite, is not a
behaviour the provider exhibits and is modelled as length 0.) -/
def seriesCount (b : SeriesBlock) : ℕ :=
  ((b.timeEnd - b.time) / b.interval).toNat

/-- The reconstructed timestamps (epoch seconds):
`start + i * interval + utcOffsetSeconds`. -/
def seriesTimes (offset : ℤ) (b : SeriesBlock) : List ℤ :=
  (List.range (seriesCount b)).map (fun (i : ℕ) => b.time + (i : ℤ) * b.interval + offset)

/-! ## Output assembly (normalizer + packager) -/

/-- `"°F"` / `"°C"` (line 224). -/
def tempUnitOf : Units → String
  | .imperial => "°F"
  | .metric => "°C"

/-- `"mph"` / `"km/h"` (line 225). -/
def windUnitOf : Units → String
  | .imperial => "mph"
  | .metric => "km/h"

/-- The `units` string echoed in payloads. -/
def unitsStr : Units → String
  | .metric => "metric"
  | .imperial => "imperial"

/-- The `mode` string echoed in payloads. -/
def modeStr : Mode → String
  | .current => "current"
  | .hourly => "hourly"
  | .daily => "daily"

/-- The `hourly_next_24h` items (lines 273-299): truncate to
`Math.min(24, temp.length, wind.length, times.length)` and normalize
each sample. -/
def hourlyItems (units : Units) (offset : ℤ) (hb : SeriesBlock) : List JVal :=
  let times := seriesTimes offset hb
  let temp := getVarArray hb 0
  let wind := getVarArray hb 1
  let maxN := min 24 (min temp.length (min wind.length times.length))
  (List.range maxN).map (fun i =>
    .jobj [
      ("time_iso", .jtime (times.getD i 0)),
      ("temperature", optJ (normIdx temp i)),
      ("temperature_unit", .jstr (tempUnitOf units)),
      ("wind_speed", optJ (normIdx wind i)),
      ("wind_speed_unit", .jstr (windUnitOf units))])

/-- The `daily` items (lines 321-364): length is the minimum across the
four variable arrays and the timestamps; the date is the ISO date-only
truncation of the reconstructed timestamp. -/
def dailyItems (units : Units) (offset : ℤ) (db : SeriesBlock) : List JVal :=
  let dTimes := seriesTimes offset db
  let tMax := getVarArray db 0
  let tMin := getVarArray db 1
  let precip := getVarArray db 2
  let windMax := getVarArray db 3
  let dMaxN := min tMax.length (min tMin.length (min precip.length
    (min windMax.length dTimes.length)))
  (List.range dMaxN).map (fun i =>
    .jobj [
      ("date", .jdate ((dTimes.getD i 0).fdiv 86400)),
      ("t_max", optJ (normIdx tMax i)),
      ("t_min", optJ (normIdx tMin i)),
      ("temperature_unit", .jstr (tempUnitOf units)),
      ("precipitation_sum", optJ (normIdx precip i)),
      ("precipitation_unit", .jstr "mm"),
      ("wind_speed_10m_max", optJ (normIdx windMax i)),
      ("wind_speed_unit", .jstr (windUnitOf units))])

/-- The successful current-mode payload object (lines 248-260). -/
def currentPayload (geo : Resolved) (units : Units) (mode : Mode) (cur : CurrentBlock) : JVal :=
  .jobj [
    ("location", .jstr geo.displayName),
    ("latitude", .jnum (.fin geo.latitude)),
    ("longitude", .jnum (.fin geo.longitude)),
    ("units", .jstr (unitsStr units)),
    ("mode", .jstr (modeStr mode)),
    ("current", .jobj [
      ("temperature", optJ (normCurrent cur.temperature)),
      ("temperature_unit", .jstr (tempUnitOf units)),
      ("wind_speed", optJ (normCurrent cur.windSpeed)),
      ("wind_speed_unit", .jstr (windUnitOf units))])]

/-- The successful hourly-mode payload object (lines 301-308). -/
def hourlyPayload (geo : Resolved) (units : Units) (mode : Mode) (offset : ℤ)
    (hb : SeriesBlock) : JVal :=
  .jobj [
    ("location", .jstr geo.displayName),
    ("latitude", .jnum (.fin geo.latitude)),
    ("longitude", .jnum (.fin geo.longitude)),
    ("units", .jstr (unitsStr units)),
    ("mode", .jstr (modeStr mode)),
    ("hourly_next_24h", .jarr (hourlyItems units offset hb))]

/-- The successful daily-mode payload object (lines 365-374); `days` is
the clamped horizon, echoed as `days ?? null`. -/
def dailyPayload (geo : Resolved) (units : Units) (mode : Mode) (days : Option ℤ)
    (offset : ℤ) (db : SeriesBlock) : JVal :=
  .jobj [
    ("location", .jstr geo.displayName),
    ("latitude", .jnum (.fin geo.latitude)),
    ("longitude", .jnum (.fin geo.longitude)),
    ("units", .jstr (unitsStr units)),
    ("mode", .jstr (modeStr mode)),
    ("days", (days.map (fun d => JVal.jnum (.fin (d : ℚ)))).getD .jnull),
    ("daily", .jarr (dailyItems units offset db))]

/-- A content item of the result envelope: a text item or a structured
json item (`ToolResult.content`, lines 129-134; the single-element array
is modelled by the single item). -/
inductive Content where
  | text (s : String)
  | json (j : JVal)

/-- Whether a content item is the structured (json) variant. -/
def Content.isJsonVariant : Content → Bool
  | .json _ => true
  | .text _ => false

/-- The payload of a structured content item. -/
def Content.jsonPayload : Content → Option JVal
  | .json j => some j
  | .text _ => none

/-- The result envelope. -/
structure ToolResult where
  content : Content
  isError : Bool

/-- `wrap` (lines 136-152): text format stringifies the payload, json
format carries it structurally. -/
def wrap (fmt : Format) (payload : JVal) : Content :=
  match fmt with
  | .text => .text payload.render
  | .json => .json payload

/-- The flattened issue list rendered as the `z.treeifyError` tree (all
schema paths here have at most one segment): root-level messages under
`errors`, per-field messages grouped under `properties`. -/
def treeifyError (issues : List Issue) : JVal :=
  .jobj [
    ("errors", .jarr ((issues.filter (fun i => i.path = [])).map (fun i => .jstr i.message))),
    ("properties", .jobj
      ((["city", "units", "mode", "days", "format"]).filterMap (fun f =>
        let msgs := issues.filter (fun i => i.path = [f])
        if msgs.isEmpty then none
        else some (f, JVal.jobj [("errors", .jarr (msgs.map (fun i => .jstr i.message)))]))))]

/-- The behaviour of the two outbound collaborator calls during one
request: an `Except.error` models a thrown exception carrying the
message the `catch` block extracts.  The forecast collaborator's
response may depend on the parameter list it is sent. -/
structure Env where
  geo : Except String GeoResponse
  forecast : List (String × PVal) → Except String (List ForecastResponse)

/-- `handleGetWeather` (lines 154-384): validation, geocoding, forecast
fetch, per-mode normalization, packaging; the `try/catch` around the
outbound calls is the propagation of the `Except.error` branches into
the `Failed to fetch weather` envelope. -/
def handleGetWeather (dflt : Format) (argsRaw : RawInput) (env : Env) : ToolResult :=
  match validateArgs dflt argsRaw with
  | .error issues =>
      { content := wrap .json (.jobj [("error", .jstr "invalid_arguments"),
          ("issues", treeifyError issues)]),
        isError := true }
  | .ok args =>
      let days := resolvedDays args
      match env.geo with
      | .error e =>
          { content := .text ("Failed to fetch weather: " ++ e), isError := true }
      | .ok gresp =>
          match geocodeCity gresp with
          | none =>
              { content := .text ("Could not find location for \"" ++ args.city ++ "\""),
                isError := true }
          | some geo =>
              let params := buildParams geo args.mode args.units days
              match env.forecast params with
              | .error e =>
                  { content := .text ("Failed to fetch weather: " ++ e), isError := true }
              | .ok responses =>
                  match responses.head? with
                  | none =>
                      { content := wrap args.format (.jobj [("error", .jstr "no_data")]),
                        isError := true }
                  | some response =>
                      match args.mode with
                      | .current =>
                          match response.current with
                          | none =>
                              { content := wrap args.format
                                  (.jobj [("error", .jstr "missing_current")]),
                                isError := true }
                          | some cur =>
                              { content := wrap args.format
                                  (currentPayload geo args.units args.mode cur),
                                isError := false }
                      | .hourly =>
                          match response.hourly with
                          | none =>
                              { content := wrap args.format
                                  (.jobj [("error", .jstr "missing_hourly")]),
                                isError := true }
                          | some hb =>
                              { content := wrap args.format
                                  (hourlyPayload geo args.units args.mode
                                    response.utcOffsetSeconds hb),
                                isError := false }
                      | .daily =>
                          match response.daily with
                          | none =>
                              { content := wrap args.format
                                  (.jobj [("error", .jstr "missing_daily")]),
                                isError := true }
                          | some db =>
                              { content := wrap args.format
                                  (dailyPayload geo args.units args.mode days
                                    response.utcOffsetSeconds db),
                                isError := false }

/-! ## Concrete fixtures used by witnesses and counterexamples -/

/-- Fixture: a successful geocoding exchange with one result. -/
def geoParis : GeoResponse := ⟨true, [⟨1, 2, "Paris", some "France", none⟩]⟩

/-- Fixture: the resolved location of `geoParis`. -/
def locParis : Resolved := ⟨1, 2, "Paris, France"⟩

/-- Fixture: arguments requesting current mode with text format. -/
def rawCurrentText : RawInput := .obj ⟨.str "Paris", .absent, .absent, .absent, .str "text"⟩

/-- Fixture: arguments requesting hourly mode, defaults otherwise. -/
def rawHourly : RawInput := .obj ⟨.str "Paris", .absent, .str "hourly", .absent, .absent⟩

/-- Fixture: arguments requesting daily mode with `days = 7`. -/
def rawDaily7 : RawInput := .obj ⟨.str "Paris", .absent, .str "daily", .intNum 7, .absent⟩

/-- Fixture: the forecast collaborator returns an empty response list. -/
def envNoData : Env := { geo := Except.ok geoParis, forecast := fun _ => .ok [] }

/-- Fixture: one hourly sample whose temperature is NaN. -/
def hbNaN : SeriesBlock := ⟨0, 3600, 3600, [some [JNum.nan], some [JNum.fin 1]]⟩

/-- Fixture: a forecast response carrying `hbNaN`. -/
def respNaN : ForecastResponse :=
  { utcOffsetSeconds := 0, current := none, hourly := some hbNaN, daily := none }

/-- Fixture: environment delivering `respNaN`. -/
def envNaN : Env := { geo := Except.ok geoParis, forecast := fun _ => .ok [respNaN] }

/-- Fixture: 40 aligned hourly samples at a one-hour interval. -/
def hb40 : SeriesBlock :=
  ⟨0, 144000, 3600,
   [some (List.replicate 40 (JNum.fin 5)), some (List.replicate 40 (JNum.fin 3))]⟩

/-- Fixture: a forecast response carrying `hb40`. -/
def resp40 : ForecastResponse :=
  { utcOffsetSeconds := 0, current := none, hourly := some hb40, daily := none }

/-- Fixture: environment delivering `resp40`. -/
def env40 : Env := { geo := Except.ok geoParis, forecast := fun _ => .ok [resp40] }

/-- Fixture: daily arrays of mismatched lengths 5/7/7/7 with 7
timestamps. -/
def db57 : SeriesBlock :=
  ⟨0, 604800, 86400,
   [some (List.replicate 5 (JNum.fin 20)), some (List.replicate 7 (JNum.fin 10)),
    some (List.replicate 7 (JNum.fin 0)), some (List.replicate 7 (JNum.fin 30))]⟩

/-- Fixture: a forecast response carrying `db57`. -/
def respD57 : ForecastResponse :=
  { utcOffsetSeconds := 0, current := none, hourly := none, daily := some db57 }

/-- Fixture: environment delivering `respD57`. -/
def envD57 : Env := { geo := Except.ok geoParis, forecast := fun _ => .ok [respD57] }

/-- Fixture: the forecast fetch throws. -/
def envBoom : Env := { geo := Except.ok geoParis, forecast := fun _ => .error "network down" }

/-- Fixture: a current block with samples 20.449 and 19.96. -/
def curBlock : CurrentBlock := ⟨.num (.fin (20449/1000)), .num (.fin (1996/100))⟩

/-- Fixture: a forecast response carrying `curBlock`. -/
def respCur : ForecastResponse :=
  { utcOffsetSeconds := 0, current := some curBlock, hourly := none, daily := none }

/-- Fixture: environment delivering `respCur`. -/
def envCur : Env := { geo := Except.ok geoParis, forecast := fun _ => .ok [respCur] }

/-- Whether validation of the given input succeeds. -/
def validationPasses (dflt : Format) (input : RawInput) : Bool :=
  match validateArgs dflt input with
  | .ok _ => true
  | .error _ => false

/-- A result envelope is well-formed: its content is a single text item
or a single structured item, and its error flag is boolean. -/
def WellFormedResult (r : ToolResult) : Prop :=
  (∃ s, r.content = .text s) ∨ (∃ p, r.content = .json p)

/-! ## Helper lemmas -/

theorem rangeMap_length {α : Type} (f : ℕ → α) (n : ℕ) :
    ((List.range n).map f).length = n := by
  simp

theorem rangeMap_getD {α : Type} (f : ℕ → α) (n i : ℕ) (d : α) (h : i < n) :
    ((List.range n).map f).getD i d = f i := by
  simp [List.getD, List.getElem?_map, List.getElem?_range, h]

theorem normIdx_getD {arr : List JNum} {i : ℕ} (h : i < arr.length) :
    optJ (normIdx arr i) = .jnum ((arr.getD i .nan).toFixedOne) := by
  have e1 := List.getElem?_eq_getElem h
  simp [normIdx, optJ, List.getD, e1]

/-! ## Claim theorems -/

/-- C1 counterexample: with a valid request asking `format = "text"`, an
environment whose forecast collaborator returns no response (the
`no_data` outcome) yields a TEXT content item — the stringified error
payload — not a structured json item, so the missing-section errors are
not packaged as structured content regardless of format. -/
theorem c1_counterexample :
    (handleGetWeather .json rawCurrentText envNoData).isError = true
    ∧ (handleGetWeather .json rawCurrentText envNoData).content =
        .text "\x7b\"error\":\"no_data\"\x7d"
    ∧ (handleGetWeather .json rawCurrentText envNoData).content.isJsonVariant = false :=
  ⟨rfl, rfl, rfl⟩

/-- C1 amended: schema-validation failures are always packaged as
structured json content regardless of the requested format, with
`isError = true`; the `no_data`, `missing_current`, `missing_hourly`
and `missing_daily` outcomes instead follow the requested format
through `wrap`, so text wrapping applies to them exactly as to
successful payloads. -/
theorem c1_error_packaging :
    (∀ dflt input env issues,
        validateArgs dflt input = .error issues →
        handleGetWeather dflt input env =
          ⟨.json (.jobj [("error", .jstr "invalid_arguments"),
            ("issues", treeifyError issues)]), true⟩)
    ∧ (∀ dflt input env args gresp loc,
        validateArgs dflt input = .ok args →
        env.geo = .ok gresp →
        geocodeCity gresp = some loc →
        env.forecast (buildParams loc args.mode args.units (resolvedDays args)) = .ok [] →
        handleGetWeather dflt input env =
          ⟨wrap args.format (.jobj [("error", .jstr "no_data")]), true⟩)
    ∧ (∀ dflt input env c u dopt f gresp loc resp rest,
        validateArgs dflt input = .ok ⟨c, u, .current, dopt, f⟩ →
        env.geo = .ok gresp →
        geocodeCity gresp = some loc →
        env.forecast (buildParams loc .current u none) = .ok (resp :: rest) →
        resp.current = none →
        handleGetWeather dflt input env =
          ⟨wrap f (.jobj [("error", .jstr "missing_current")]), true⟩)
    ∧ (∀ dflt input env c u dopt f gresp loc resp rest,
        validateArgs dflt input = .ok ⟨c, u, .hourly, dopt, f⟩ →
        env.geo = .ok gresp →
        geocodeCity gresp = some loc →
        env.forecast (buildParams loc .hourly u none) = .ok (resp :: rest) →
        resp.hourly = none →
        handleGetWeather dflt input env =
          ⟨wrap f (.jobj [("error", .jstr "missing_hourly")]), true⟩)
    ∧ (∀ dflt input env c u dopt f gresp loc resp rest,
        validateArgs dflt input = .ok ⟨c, u, .daily, dopt, f⟩ →
        env.geo = .ok gresp →
        geocodeCity gresp = some loc →
        env.forecast (buildParams loc .daily u (some (min 10 (max 7 (dopt.getD 7))))) =
          .ok (resp :: rest) →
        resp.daily = none →
        handleGetWeather dflt input env =
          ⟨wrap f (.jobj [("error", .jstr "missing_daily")]), true⟩) := by
  refine ⟨?_, ?_, ?_, ?_, ?_⟩
  · intro dflt input env issues hv
    simp [handleGetWeather, hv, wrap]
  · intro dflt input env args gresp loc hv hg hloc hfc
    simp [handleGetWeather, hv, hg, hloc, hfc]
  · intro dflt input env c u dopt f gresp loc resp rest hv hg hloc hfc hcur
    simp [handleGetWeather, hv, hg, hloc, resolvedDays, hfc, hcur]
  · intro dflt input env c u dopt f gresp loc resp rest hv hg hloc hfc hhb
    simp [handleGetWeather, hv, hg, hloc, resolvedDays, hfc, hhb]
  · intro dflt input env c u dopt f gresp loc resp rest hv hg hloc hfc hdb
    simp [handleGetWeather, hv, hg, hloc, resolvedDays, hfc, hdb]

/-- C1 witness: a validation failure (empty city) with text format still
produces a structured json envelope, while a `no_data` outcome with text
format produces a text-wrapped envelope, a `missing_current` outcome
with text format produces a text-wrapped envelope, and `missing_hourly`
/ `missing_daily` outcomes with json format produce structured
envelopes. -/
theorem c1_error_packaging_witness :
    handleGetWeather .json (.obj ⟨.str "", .absent, .absent, .absent, .str "text"⟩) envNoData =
      ⟨.json (.jobj [("error", .jstr "invalid_arguments"),
        ("issues", treeifyError [⟨["city"], "city is required"⟩])]), true⟩
    ∧ handleGetWeather .json rawCurrentText envNoData =
      ⟨wrap .text (.jobj [("error", .jstr "no_data")]), true⟩
    ∧ handleGetWeather .json rawCurrentText envNaN =
      ⟨wrap .text (.jobj [("error", .jstr "missing_current")]), true⟩
    ∧ handleGetWeather .json rawHourly envCur =
      ⟨wrap .json (.jobj [("error", .jstr "missing_hourly")]), true⟩
    ∧ handleGetWeather .json rawDaily7 envCur =
      ⟨wrap .json (.jobj [("error", .jstr "missing_daily")]), true⟩ :=
  ⟨c1_error_packaging.1 .json _ envNoData [⟨["city"], "city is required"⟩] rfl,
   c1_error_packaging.2.1 .json rawCurrentText envNoData
     ⟨"Paris", .metric, .current, none, .text⟩ geoParis locParis rfl rfl rfl rfl,
   c1_error_packaging.2.2.1 .json rawCurrentText envNaN
     "Paris" .metric none .text geoParis locParis respNaN [] rfl rfl rfl rfl rfl,
   c1_error_packaging.2.2.2.1 .json rawHourly envCur
     "Paris" .metric none .json geoParis locParis respCur [] rfl rfl rfl rfl rfl,
   c1_error_packaging.2.2.2.2 .json rawDaily7 envCur
     "Paris" .metric (some 7) .json geoParis locParis respCur [] rfl rfl rfl rfl rfl⟩

/-- C2 counterexample: a provider NaN sample in hourly mode is passed
through the hourly normalizer unchanged — the successful envelope's
first item carries `temperature = NaN`, which is neither a rounded
finite value nor null, because the hourly/daily branches test only
`typeof x === "number"` without the `Number.isFinite` guard the current
branch applies. -/
theorem c2_counterexample :
    (handleGetWeather .json rawHourly envNaN).isError = false
    ∧ (handleGetWeather .json rawHourly envNaN).content.jsonPayload =
        some (hourlyPayload locParis .metric .hourly 0 hbNaN)
    ∧ ((hourlyItems .metric 0 hbNaN).getD 0 .jnull).lookup "temperature" = some (.jnum .nan) :=
  ⟨rfl, rfl, rfl⟩

/-- C2 amended: in current mode each numeric field is the sample
rounded to one decimal when the sample is a finite number and null
otherwise (non-finite numbers included); in hourly and daily modes each
numeric field of an output entry is the `toFixed(1)` image of the
corresponding array sample, where finite samples are rounded to one
decimal but NaN/±Infinity pass through unchanged, and within the
truncated output range the field is never null. -/
theorem c2_null_policy :
    (∀ q : ℚ, normCurrent (.num (.fin q)) = some (.fin (toFixed1 q)))
    ∧ (∀ s x, normCurrent s = some x → x.isFinite = true)
    ∧ (∀ x : JNum, x.isFinite = false → normCurrent (.num x) = none)
    ∧ (∀ units offset hb i, i < (hourlyItems units offset hb).length →
        ((hourlyItems units offset hb).getD i .jnull).lookup "temperature" =
          some (.jnum (((getVarArray hb 0).getD i .nan).toFixedOne))
        ∧ ((hourlyItems units offset hb).getD i .jnull).lookup "wind_speed" =
          some (.jnum (((getVarArray hb 1).getD i .nan).toFixedOne)))
    ∧ (∀ units offset db i, i < (dailyItems units offset db).length →
        ((dailyItems units offset db).getD i .jnull).lookup "t_max" =
          some (.jnum (((getVarArray db 0).getD i .nan).toFixedOne))
        ∧ ((dailyItems units offset db).getD i .jnull).lookup "t_min" =
          some (.jnum (((getVarArray db 1).getD i .nan).toFixedOne))
        ∧ ((dailyItems units offset db).getD i .jnull).lookup "precipitation_sum" =
          some (.jnum (((getVarArray db 2).getD i .nan).toFixedOne))
        ∧ ((dailyItems units offset db).getD i .jnull).lookup "wind_speed_10m_max" =
          some (.jnum (((getVarArray db 3).getD i .nan).toFixedOne))) := by
  refine ⟨fun q => rfl, ?_, ?_, ?_, ?_⟩
  · intro s x h
    cases s with
    | notNum => simp [normCurrent] at h
    | num y =>
      cases y with
      | fin q =>
        simp [normCurrent] at h
        simp [← h, JNum.isFinite]
      | nan => simp [normCurrent] at h
      | inf => simp [normCurrent] at h
      | negInf => simp [normCurrent] at h
  · intro x hx
    cases x with
    | fin q => simp [JNum.isFinite] at hx
    | nan => simp [normCurrent]
    | inf => simp [normCurrent]
    | negInf => simp [normCurrent]
  · intro units offset hb i hi
    simp only [hourlyItems, List.length_map, List.length_range] at hi
    simp only [hourlyItems]
    rw [rangeMap_getD _ _ _ _ hi]
    rw [lt_min_iff, lt_min_iff, lt_min_iff] at hi
    exact ⟨congrArg some (normIdx_getD hi.2.1), congrArg some (normIdx_getD hi.2.2.1)⟩
  · intro units offset db i hi
    simp only [dailyItems, List.length_map, List.length_range] at hi
    simp only [dailyItems]
    rw [rangeMap_getD _ _ _ _ hi]
    rw [lt_min_iff, lt_min_iff, lt_min_iff, lt_min_iff] at hi
    exact ⟨congrArg some (normIdx_getD hi.1), congrArg some (normIdx_getD hi.2.1),
      congrArg some (normIdx_getD hi.2.2.1), congrArg some (normIdx_getD hi.2.2.2.1)⟩

/-- C2 witness: the rounding case, the current-mode NaN-to-null case,
and the hourly pass-through case, each at a concrete input. -/
theorem c2_null_policy_witness :
    normCurrent (.num (.fin 20)) = some (.fin (toFixed1 20))
    ∧ JNum.nan.isFinite = false
    ∧ normCurrent (.num .nan) = none
    ∧ ((hourlyItems .metric 0 hbNaN).getD 0 .jnull).lookup "temperature" =
        some (.jnum (((getVarArray hbNaN 0).getD 0 .nan).toFixedOne)) :=
  ⟨c2_null_policy.1 20, rfl, c2_null_policy.2.2.1 .nan rfl,
   (c2_null_policy.2.2.2.1 .metric 0 hbNaN 0 (by decide)).1⟩

/-- C3: `handleGetWeather` is a total function into well-formed result
envelopes — no collaborator behaviour, including thrown exceptions
(modelled by the `Except.error` branches of the environment), escapes
it — and an exception with message `m` thrown by the forecast step
yields the text envelope `Failed to fetch weather: m` with
`isError = true`. -/
theorem c3_no_unhandled_fault :
    (∀ dflt input env, WellFormedResult (handleGetWeather dflt input env))
    ∧ (∀ dflt input env args gresp loc m,
        validateArgs dflt input = .ok args →
        env.geo = .ok gresp →
        geocodeCity gresp = some loc →
        env.forecast (buildParams loc args.mode args.units (resolvedDays args)) = .error m →
        handleGetWeather dflt input env =
          ⟨.text ("Failed to fetch weather: " ++ m), true⟩) := by
  constructor
  · intro dflt input env
    cases h : (handleGetWeather dflt input env).content with
    | text s => exact Or.inl ⟨s, h⟩
    | json p => exact Or.inr ⟨p, h⟩
  · intro dflt input env args gresp loc m hv hg hloc hfc
    simp [handleGetWeather, hv, hg, hloc, hfc]

/-- C3 witness: a forecast fetch throwing `network down` yields the
corresponding text error envelope. -/
theorem c3_no_unhandled_fault_witness :
    handleGetWeather .json rawHourly envBoom =
      ⟨.text ("Failed to fetch weather: " ++ "network down"), true⟩ :=
  c3_no_unhandled_fault.2 .json rawHourly envBoom
    ⟨"Paris", .metric, .hourly, none, .json⟩ geoParis locParis "network down" rfl rfl rfl rfl

/-- C4: `{mode: "daily", days: 3}` with any non-empty city fails
validation with the single issue on path `days` and yields the
structured `invalid_arguments` envelope; a whitespace-only city fails
with the issue on path `city`; with mode daily, a days value in the
schema-level range `[1,16]` passes overall validation exactly when it
lies in `[7,10]` (7..10 accepted, the rest rejected by the refinement),
while for non-daily modes every days value in `[1,16]` is accepted. -/
theorem c4_schema_days_and_city :
    (∀ dflt env c, jsTrim c ≠ "" →
        validateArgs dflt (.obj ⟨.str c, .absent, .str "daily", .intNum 3, .absent⟩) =
          .error [⟨["days"], "days must be between 7 and 10 for daily mode"⟩]
        ∧ handleGetWeather dflt (.obj ⟨.str c, .absent, .str "daily", .intNum 3, .absent⟩) env =
            ⟨.json (.jobj [("error", .jstr "invalid_arguments"),
              ("issues", treeifyError [⟨["days"], "days must be between 7 and 10 for daily mode"⟩])]),
              true⟩)
    ∧ (∀ dflt env s, jsTrim s = "" →
        validateArgs dflt (.obj ⟨.str s, .absent, .absent, .absent, .absent⟩) =
          .error [⟨["city"], "city is required"⟩]
        ∧ handleGetWeather dflt (.obj ⟨.str s, .absent, .absent, .absent, .absent⟩) env =
            ⟨.json (.jobj [("error", .jstr "invalid_arguments"),
              ("issues", treeifyError [⟨["city"], "city is required"⟩])]), true⟩)
    ∧ (∀ dflt c d, jsTrim c ≠ "" → 7 ≤ d → d ≤ 10 →
        validationPasses dflt (.obj ⟨.str c, .absent, .str "daily", .intNum d, .absent⟩) = true)
    ∧ (∀ dflt c d, jsTrim c ≠ "" → 1 ≤ d → d ≤ 16 → (d < 7 ∨ 10 < d) →
        validationPasses dflt (.obj ⟨.str c, .absent, .str "daily", .intNum d, .absent⟩) = false)
    ∧ (∀ dflt c mraw d, jsTrim c ≠ "" → 1 ≤ d → d ≤ 16 →
        (mraw = RawVal.str "current" ∨ mraw = RawVal.str "hourly" ∨ mraw = RawVal.absent) →
        validationPasses dflt (.obj ⟨.str c, .absent, mraw, .intNum d, .absent⟩) = true) := by
  refine ⟨?_, ?_, ?_, ?_, ?_⟩
  · intro dflt env c hc
    have hcity : parseCity (.str c) = .ok (jsTrim c) := by simp [parseCity, hc]
    constructor
    · simp [validateArgs, hcity, parseUnits, parseMode, parseDays, parseFormat]
    · simp [handleGetWeather, validateArgs, hcity, parseUnits, parseMode, parseDays, parseFormat,
        wrap]
  · intro dflt env s hs
    have hcity : parseCity (.str s) = .error ⟨["city"], "city is required"⟩ := by
      simp [parseCity, hs]
    constructor
    · simp [validateArgs, hcity, parseUnits, parseMode, parseDays, parseFormat, fieldIssues]
    · simp [handleGetWeather, validateArgs, hcity, parseUnits, parseMode, parseDays, parseFormat,
        fieldIssues, wrap]
  · intro dflt c d hc h7 h10
    have hcity : parseCity (.str c) = .ok (jsTrim c) := by simp [parseCity, hc]
    have hd : parseDays (.intNum d) = .ok (some d) := by
      have hx : ¬ (d < 1) := by omega
      have hy : ¬ (16 < d) := by omega
      simp [parseDays, hx, hy]
    have hn : ¬ (d < 7 ∨ 10 < d) := by omega
    simp [validationPasses, validateArgs, hcity, hd, parseUnits, parseMode, parseFormat, hn]
  · intro dflt c d hc h1 h16 hout
    have hcity : parseCity (.str c) = .ok (jsTrim c) := by simp [parseCity, hc]
    have hd : parseDays (.intNum d) = .ok (some d) := by
      have hx : ¬ (d < 1) := by omega
      have hy : ¬ (16 < d) := by omega
      simp [parseDays, hx, hy]
    simp [validationPasses, validateArgs, hcity, hd, parseUnits, parseMode, parseFormat, hout]
  · intro dflt c mraw d hc h1 h16 hm
    have hcity : parseCity (.str c) = .ok (jsTrim c) := by simp [parseCity, hc]
    have hd : parseDays (.intNum d) = .ok (some d) := by
      have hx : ¬ (d < 1) := by omega
      have hy : ¬ (16 < d) := by omega
      simp [parseDays, hx, hy]
    rcases hm with rfl | rfl | rfl <;>
      simp [validationPasses, validateArgs, hcity, hd, parseUnits, parseMode, parseFormat]

/-- C4 witness: the concrete inputs of the claim — daily with days 3, a
whitespace city, daily with days 8 (accepted), daily with days 12
(rejected), hourly with days 3 (accepted). -/
theorem c4_schema_days_and_city_witness :
    (validateArgs .json (.obj ⟨.str "Paris", .absent, .str "daily", .intNum 3, .absent⟩) =
      .error [⟨["days"], "days must be between 7 and 10 for daily mode"⟩])
    ∧ (validateArgs .json (.obj ⟨.str " ", .absent, .absent, .absent, .absent⟩) =
      .error [⟨["city"], "city is required"⟩])
    ∧ (validationPasses .json (.obj ⟨.str "Paris", .absent, .str "daily", .intNum 8, .absent⟩) = true)
    ∧ (validationPasses .json (.obj ⟨.str "Paris", .absent, .str "daily", .intNum 12, .absent⟩) = false)
    ∧ (validationPasses .json (.obj ⟨.str "Paris", .absent, .str "hourly", .intNum 3, .absent⟩) = true) :=
  ⟨(c4_schema_days_and_city.1 .json envNoData "Paris" (by decide)).1,
   (c4_schema_days_and_city.2.1 .json envNoData " " (by decide)).1,
   c4_schema_days_and_city.2.2.1 .json "Paris" 8 (by decide) (by decide) (by decide),
   c4_schema_days_and_city.2.2.2.1 .json "Paris" 12 (by decide) (by decide) (by decide)
     (Or.inr (by decide)),
   c4_schema_days_and_city.2.2.2.2 .json "Paris" (.str "hourly") 3 (by decide) (by decide)
     (by decide) (Or.inr (Or.inl rfl))⟩

/-- C5: successful current- and hourly-mode payloads carry no `days`
key at all, while the successful daily-mode payload echoes
`days = min(10, max(7, input days ?? 7))` — the clamped forecast
horizon — regardless of the provider's response contents. -/
theorem c5_days_echo :
    (∀ dflt input env c u dopt f gresp loc resp rest cur,
        validateArgs dflt input = .ok ⟨c, u, .current, dopt, f⟩ →
        env.geo = .ok gresp →
        geocodeCity gresp = some loc →
        env.forecast (buildParams loc .current u none) = .ok (resp :: rest) →
        resp.current = some cur →
        handleGetWeather dflt input env =
          ⟨wrap f (currentPayload loc u .current cur), false⟩
        ∧ (currentPayload loc u .current cur).lookup "days" = none)
    ∧ (∀ dflt input env c u dopt f gresp loc resp rest hb,
        validateArgs dflt input = .ok ⟨c, u, .hourly, dopt, f⟩ →
        env.geo = .ok gresp →
        geocodeCity gresp = some loc →
        env.forecast (buildParams loc .hourly u none) = .ok (resp :: rest) →
        resp.hourly = some hb →
        handleGetWeather dflt input env =
          ⟨wrap f (hourlyPayload loc u .hourly resp.utcOffsetSeconds hb), false⟩
        ∧ (hourlyPayload loc u .hourly resp.utcOffsetSeconds hb).lookup "days" = none)
    ∧ (∀ dflt input env c u dopt f gresp loc resp rest db,
        validateArgs dflt input = .ok ⟨c, u, .daily, dopt, f⟩ →
        env.geo = .ok gresp →
        geocodeCity gresp = some loc →
        env.forecast (buildParams loc .daily u (some (min 10 (max 7 (dopt.getD 7))))) =
          .ok (resp :: rest) →
        resp.daily = some db →
        handleGetWeather dflt input env =
          ⟨wrap f (dailyPayload loc u .daily (some (min 10 (max 7 (dopt.getD 7))))
            resp.utcOffsetSeconds db), false⟩
        ∧ (dailyPayload loc u .daily (some (min 10 (max 7 (dopt.getD 7))))
            resp.utcOffsetSeconds db).lookup "days" =
          some (.jnum (.fin ((min 10 (max 7 (dopt.getD 7)) : ℤ) : ℚ)))) := by
  refine ⟨?_, ?_, ?_⟩
  · intro dflt input env c u dopt f gresp loc resp rest cur hv hg hloc hfc hcur
    constructor
    · simp [handleGetWeather, hv, hg, hloc, resolvedDays, hfc, hcur]
    · simp [currentPayload, JVal.lookup, List.lookup]
  · intro dflt input env c u dopt f gresp loc resp rest hb hv hg hloc hfc hhb
    constructor
    · simp [handleGetWeather, hv, hg, hloc, resolvedDays, hfc, hhb]
    · simp [hourlyPayload, JVal.lookup, List.lookup]
  · intro dflt input env c u dopt f gresp loc resp rest db hv hg hloc hfc hdb
    constructor
    · simp [handleGetWeather, hv, hg, hloc, resolvedDays, hfc, hdb]
    · simp [dailyPayload, JVal.lookup, List.lookup]

/-- C5 witness: concrete successful runs in each mode — no `days` key
for current/hourly, `days = 7` echoed for daily with `days = 7`
requested. -/
theorem c5_days_echo_witness :
    (handleGetWeather .json (.obj ⟨.str "Paris", .absent, .absent, .absent, .absent⟩) envCur =
        ⟨wrap .json (currentPayload locParis .metric .current curBlock), false⟩
      ∧ (currentPayload locParis .metric .current curBlock).lookup "days" = none)
    ∧ (handleGetWeather .json rawHourly env40 =
        ⟨wrap .json (hourlyPayload locParis .metric .hourly 0 hb40), false⟩
      ∧ (hourlyPayload locParis .metric .hourly 0 hb40).lookup "days" = none)
    ∧ (handleGetWeather .json rawDaily7 envD57 =
        ⟨wrap .json (dailyPayload locParis .metric .daily (some 7) 0 db57), false⟩
      ∧ (dailyPayload locParis .metric .daily (some 7) 0 db57).lookup "days" =
          some (.jnum (.fin 7))) :=
  ⟨c5_days_echo.1 .json _ envCur "Paris" .metric none .json geoParis locParis respCur [] curBlock
     rfl rfl rfl rfl rfl,
   c5_days_echo.2.1 .json rawHourly env40 "Paris" .metric none .json geoParis locParis resp40 []
     hb40 rfl rfl rfl rfl rfl,
   c5_days_echo.2.2 .json rawDaily7 envD57 "Paris" .metric (some 7) .json geoParis locParis
     respD57 [] db57 rfl rfl rfl rfl rfl⟩

/-- C6: the hourly output has exactly
`min(24, temperature samples, wind samples, reconstructed timestamps)`
entries; the `i`-th entry's timestamp is
`base_time + i * interval + utc_offset_seconds`; for a positive interval
the reconstructed timestamps are strictly ascending starting at the
first returned sample; and the payload's `hourly_next_24h` field is
exactly this item list. -/
theorem c6_hourly_truncation :
    (∀ units offset hb,
        (hourlyItems units offset hb).length =
          min 24 (min (getVarArray hb 0).length
            (min (getVarArray hb 1).length (seriesCount hb))))
    ∧ (∀ units offset hb i, i < (hourlyItems units offset hb).length →
        ((hourlyItems units offset hb).getD i .jnull).lookup "time_iso" =
          some (.jtime (hb.time + i * hb.interval + offset)))
    ∧ (∀ offset hb, 0 < hb.interval → (seriesTimes offset hb).Sorted (· < ·))
    ∧ (∀ geo units mode offset hb,
        (hourlyPayload geo units mode offset hb).lookup "hourly_next_24h" =
          some (.jarr (hourlyItems units offset hb))) := by
  refine ⟨?_, ?_, ?_, ?_⟩
  · intro units offset hb
    simp [hourlyItems, seriesTimes]
  · intro units offset hb i hi
    simp only [hourlyItems, List.length_map, List.length_range] at hi
    simp only [hourlyItems]
    rw [rangeMap_getD _ _ _ _ hi]
    rw [lt_min_iff, lt_min_iff, lt_min_iff] at hi
    have hc : i < seriesCount hb := by
      have := hi.2.2.2
      simpa [seriesTimes] using this
    have ht : (seriesTimes offset hb).getD i 0 = hb.time + i * hb.interval + offset := by
      simp only [seriesTimes]
      rw [rangeMap_getD _ _ _ _ hc]
    exact congrArg some (congrArg JVal.jtime ht)
  · intro offset hb hpos
    simp only [seriesTimes, List.Sorted]
    refine List.Pairwise.map _ ?_ (List.pairwise_lt_range _)
    intro a b hab
    have h1 : (a : ℤ) < b := by exact_mod_cast hab
    have h2 := mul_lt_mul_of_pos_right h1 hpos
    linarith
  · intro geo units mode offset hb
    rfl

/-- C6 witness: 40 aligned hourly samples produce exactly 24 entries,
the first timestamped at the base time, with strictly ascending
reconstructed timestamps. -/
theorem c6_hourly_truncation_witness :
    (hourlyItems .metric 0 hb40).length = 24
    ∧ ((hourlyItems .metric 0 hb40).getD 0 .jnull).lookup "time_iso" = some (.jtime 0)
    ∧ (seriesTimes 0 hb40).Sorted (· < ·)
    ∧ (hourlyPayload locParis .metric .hourly 0 hb40).lookup "hourly_next_24h" =
        some (.jarr (hourlyItems .metric 0 hb40)) :=
  ⟨c6_hourly_truncation.1 .metric 0 hb40,
   c6_hourly_truncation.2.1 .metric 0 hb40 0 (by decide),
   c6_hourly_truncation.2.2.1 0 hb40 (by decide),
   c6_hourly_truncation.2.2.2 locParis .metric .hourly 0 hb40⟩

/-- C7: the daily output length is the minimum across the five aligned
arrays (max-temperature, min-temperature, precipitation-sum, max-wind,
reconstructed timestamps), each entry is dated by the reconstructed
timestamp truncated to its UTC date, and the payload's `daily` field is
exactly this item list. -/
theorem c7_daily_min_length :
    (∀ units offset db,
        (dailyItems units offset db).length =
          min (getVarArray db 0).length (min (getVarArray db 1).length
            (min (getVarArray db 2).length
              (min (getVarArray db 3).length (seriesCount db)))))
    ∧ (∀ units offset db i, i < (dailyItems units offset db).length →
        ((dailyItems units offset db).getD i .jnull).lookup "date" =
          some (.jdate ((db.time + i * db.interval + offset).fdiv 86400)))
    ∧ (∀ geo units mode days offset db,
        (dailyPayload geo units mode days offset db).lookup "daily" =
          some (.jarr (dailyItems units offset db))) := by
  refine ⟨?_, ?_, ?_⟩
  · intro units offset db
    simp [dailyItems, seriesTimes]
  · intro units offset db i hi
    simp only [dailyItems, List.length_map, List.length_range] at hi
    simp only [dailyItems]
    rw [rangeMap_getD _ _ _ _ hi]
    rw [lt_min_iff, lt_min_iff, lt_min_iff, lt_min_iff] at hi
    have hc : i < seriesCount db := by
      have := hi.2.2.2.2
      simpa [seriesTimes] using this
    have ht : (seriesTimes offset db).getD i 0 = db.time + i * db.interval + offset := by
      simp only [seriesTimes]
      rw [rangeMap_getD _ _ _ _ hc]
    exact congrArg some (congrArg JVal.jdate (congrArg (fun t => t.fdiv 86400) ht))
  · intro geo units mode days offset db
    rfl

/-- C7 witness: daily arrays of lengths 5/7/7/7 with 7 timestamps
produce exactly 5 entries, the first dated at epoch day 0. -/
theorem c7_daily_min_length_witness :
    (dailyItems .metric 0 db57).length = 5
    ∧ ((dailyItems .metric 0 db57).getD 0 .jnull).lookup "date" = some (.jdate 0)
    ∧ (dailyPayload locParis .metric .daily (some 7) 0 db57).lookup "daily" =
        some (.jarr (dailyItems .metric 0 db57)) :=
  ⟨c7_daily_min_length.1 .metric 0 db57,
   c7_daily_min_length.2.1 .metric 0 db57 0 (by decide),
   c7_daily_min_length.2.2 locParis .metric .daily (some 7) 0 db57⟩

/-- C8: the location resolver returns the same `none` (NotFound) both on
a non-success HTTP status and on an empty results array, and in that
case the handler returns a text envelope embedding the request's city
name, with `isError = true`, for every requested format. -/
theorem c8_location_not_found :
    (∀ resp : GeoResponse, resp.ok = false → geocodeCity resp = none)
    ∧ (∀ resp : GeoResponse, resp.results = [] → geocodeCity resp = none)
    ∧ (∀ dflt input env args gresp,
        validateArgs dflt input = .ok args →
        env.geo = .ok gresp →
        geocodeCity gresp = none →
        handleGetWeather dflt input env =
          ⟨.text ("Could not find location for \"" ++ args.city ++ "\""), true⟩) := by
  refine ⟨?_, ?_, ?_⟩
  · intro resp h
    simp [geocodeCity, h]
  · intro resp h
    simp [geocodeCity, h]
  · intro dflt input env args gresp hv hg hloc
    simp [handleGetWeather, hv, hg, hloc]

/-- C8 witness: an empty results array yields the not-found text
envelope embedding `Paris`, here with text format requested. -/
theorem c8_location_not_found_witness :
    handleGetWeather .json rawCurrentText
        { geo := Except.ok ⟨true, []⟩, forecast := fun _ => .ok [] } =
      ⟨.text ("Could not find location for \"" ++ "Paris" ++ "\""), true⟩ :=
  c8_location_not_found.2.2 .json rawCurrentText _
    ⟨"Paris", .metric, .current, none, .text⟩ ⟨true, []⟩ rfl rfl rfl

/-- C9: one-decimal rounding — 20.449 normalizes to 20.4 and 19.96 to
20.0 — and the same rounding function `toFixed1` underlies the
current-mode normalizer (`normCurrent`) and the hourly/daily array
normalizer (`normIdx`, via `JNum.toFixedOne`). -/
theorem c9_rounding_one_decimal :
    toFixed1 (20449/1000) = 204/10
    ∧ toFixed1 (1996/100) = 20
    ∧ normCurrent (.num (.fin (20449/1000))) = some (.fin (204/10))
    ∧ normIdx [JNum.fin (20449/1000)] 0 = some (.fin (204/10))
    ∧ normCurrent (.num (.fin (1996/100))) = some (.fin 20)
    ∧ normIdx [JNum.fin (1996/100)] 0 = some (.fin 20)
    ∧ (∀ q : ℚ, JNum.toFixedOne (.fin q) = .fin (toFixed1 q))
    ∧ (∀ q : ℚ, normCurrent (.num (.fin q)) = some (.fin (toFixed1 q))) := by
  refine ⟨?_, ?_, ?_, ?_, ?_, ?_, fun q => rfl, fun q => rfl⟩
  · norm_num [toFixed1, round_eq]
  · norm_num [toFixed1, round_eq]
  · simp [normCurrent]; norm_num [toFixed1, round_eq]
  · simp [normIdx, JNum.toFixedOne]; norm_num [toFixed1, round_eq]
  · simp [normCurrent]; norm_num [toFixed1, round_eq]
  · simp [normIdx, JNum.toFixedOne]; norm_num [toFixed1, round_eq]

/-- C10: the parameter list built for the forecast request never
contains a `precipitation_unit` key (only temperature and wind-speed
units are mapped from the units system), and every daily output entry
carries the fixed `precipitation_unit = "mm"`, for either units
system. -/
theorem c10_precipitation_unit_fixed :
    (∀ geo mode units days k v, (k, v) ∈ buildParams geo mode units days →
        k ≠ "precipitation_unit")
    ∧ (∀ units offset db i, i < (dailyItems units offset db).length →
        ((dailyItems units offset db).getD i .jnull).lookup "precipitation_unit" =
          some (.jstr "mm")) := by
  constructor
  · intro geo mode units days k v hm hk
    subst hk
    cases mode <;> cases units <;> simp [buildParams] at hm
  · intro units offset db i hi
    simp only [dailyItems, List.length_map, List.length_range] at hi
    simp only [dailyItems]
    rw [rangeMap_getD _ _ _ _ hi]
    rfl

/-- C10 witness: a concrete daily parameter-list key, and the first
entry of an imperial daily output still carrying `"mm"`. -/
theorem c10_precipitation_unit_witness :
    "latitude" ≠ "precipitation_unit"
    ∧ ((dailyItems .imperial 0 db57).getD 0 .jnull).lookup "precipitation_unit" =
        some (.jstr "mm") :=
  ⟨c10_precipitation_unit_fixed.1 locParis .daily .metric (some 7) "latitude" (.pnum 1)
     (by simp [buildParams, locParis]),
   c10_precipitation_unit_fixed.2 .imperial 0 db57 0 (by decide)⟩

end Weather
